import Mathlib

/-!
Verification of the Gemini proxy forwarder (`src/index.js`).

The repository is a single Express request handler
`app.post('/v1beta/models/:modelId/:apiEndpoint', ...)` that forwards a JSON
POST body to the Google generative-language upstream and relays the upstream
response (headers, status, body stream) back to the client.

We embed the handler as a pure function from
  (API key, path variables, parsed JSON body, upstream behaviour)
to the ordered list of observable events the handler performs: log writes,
the outbound fetch call, header writes, body reads, body/chunk writes, and
response termination.  The upstream is a function from the outbound request
to a fetch outcome (either a transport error, as when the `fetch` promise
rejects, or a resolved response with status, headers and a chunked body
stream).  Client-visible quantities (status, headers, body, whether the
response was ended) are derived from the event trace.
-/

namespace GeminiProxy

/-- JSON values, as produced by the `express.json()` body parser.  Object
fields keep insertion order, matching JavaScript object semantics. -/
inductive Json where
  | null
  | bool (b : Bool)
  | num (n : Int)
  | str (s : String)
  | arr (elems : List Json)
  | obj (fields : List (String × Json))

/-- Escaping applied by `JSON.stringify` to string contents (quote and
backslash; other escapes are irrelevant to the claims). -/
def jsonEscape (s : String) : String :=
  String.mk (s.data.foldr
    (fun c acc =>
      match c with
      | '"' => '\\' :: '"' :: acc
      | '\\' => '\\' :: '\\' :: acc
      | c => c :: acc) [])

mutual

/-- `JSON.stringify`, as used at line 58 of `src/index.js` to serialize the
inbound body, and implicitly by `res.json(...)` for error envelopes. -/
def Json.stringify : Json → String
  | .null => "null"
  | .bool true => "true"
  | .bool false => "false"
  | .num n => toString n
  | .str s => "\"" ++ jsonEscape s ++ "\""
  | .arr es => "[" ++ Json.stringifyElems es ++ "]"
  | .obj fs => "\x7b" ++ Json.stringifyFields fs ++ "\x7d"

/-- Comma-separated serialization of array elements. -/
def Json.stringifyElems : List Json → String
  | [] => ""
  | [j] => Json.stringify j
  | j :: rest => Json.stringify j ++ "," ++ Json.stringifyElems rest

/-- Comma-separated serialization of object fields. -/
def Json.stringifyFields : List (String × Json) → String
  | [] => ""
  | [(k, v)] => "\"" ++ jsonEscape k ++ "\":" ++ Json.stringify v
  | (k, v) :: rest =>
      "\"" ++ jsonEscape k ++ "\":" ++ Json.stringify v ++ "," ++
        Json.stringifyFields rest

end

/-- The outbound HTTP request handed to `fetch` (lines 51-59):
URL, method, the single `Content-Type` header, and the serialized body. -/
structure OutboundRequest where
  url : String
  method : String
  contentType : String
  body : String
  deriving DecidableEq

/-- The upstream response as seen through `node-fetch`: status code, the two
headers the handler inspects, and the body stream, modelled as the list of
chunks the stream delivers followed by an optional stream error (the stream
emits `error` after delivering `chunks` when `streamError = some msg`, and
emits `end` when `streamError = none`). -/
structure UpstreamResponse where
  status : Nat
  contentType : Option String
  transferEncoding : Option String
  chunks : List String
  streamError : Option String
  deriving DecidableEq

/-- `response.ok` in node-fetch: status in the 2xx range. -/
def UpstreamResponse.ok (r : UpstreamResponse) : Bool :=
  200 ≤ r.status && r.status < 300

/-- Outcome of `await fetch(...)`: the promise rejects with a transport
error, or resolves to an upstream response. -/
inductive FetchOutcome where
  | fetchError (message : String)
  | resolved (resp : UpstreamResponse)
  deriving DecidableEq

/-- Observable events of one handler run, in program order. -/
inductive Ev where
  /-- `console.log` / `console.error` output. -/
  | log (msg : String)
  /-- The outbound `fetch` call. -/
  | fetchCall (req : OutboundRequest)
  /-- `res.setHeader(name, value)` (also the implicit content type set by
  `res.json`). -/
  | setHeader (name value : String)
  /-- First read of upstream body bytes (`response.text()` or the start of
  `response.body.pipe(res)`). -/
  | readBody
  /-- A body chunk written to the client while piping. -/
  | writeChunk (bytes : String)
  /-- `res.status(st).send(bytes)` / `res.status(st).json(...)`: status plus
  full body written to the client. -/
  | writeBody (status : Nat) (bytes : String)
  /-- The client response is ended (`.send`/`.json` finish it; `pipe` ends it
  on the source `end` event). -/
  | endResponse
  deriving DecidableEq

/-- The fixed upstream URL template of line 45:
`https://generativelanguage.googleapis.com/v1beta/models/${modelId}:${apiEndpoint}?key=${GEMINI_API_KEY}`. -/
def targetUrl (modelId apiEndpoint geminiApiKey : String) : String :=
  "https://generativelanguage.googleapis.com/v1beta/models/" ++ modelId ++
    ":" ++ apiEndpoint ++ "?key=" ++ geminiApiKey

/-- JavaScript falsiness of the `GEMINI_API_KEY` value at line 34
(`!GEMINI_API_KEY`): true when the variable is unset or the empty string. -/
def keyFalsy : Option String → Bool
  | none => true
  | some s => s.isEmpty

/-- The outbound request built at lines 45-59 from the path variables, key
and parsed body. -/
def reqOf (geminiApiKey modelId apiEndpoint : String) (body : Json) :
    OutboundRequest :=
  { url := targetUrl modelId apiEndpoint geminiApiKey
    method := "POST"
    contentType := "application/json"
    body := Json.stringify body }

/-- Error envelope used by the `res.status(500).json(...)` calls. -/
def errorEnvelope (error : String) (details : Option String) : String :=
  Json.stringify (Json.obj
    (("error", Json.str error) ::
      match details with
      | some d => [("details", Json.str d)]
      | none => []))

/-- Events of `res.status(st).json(body)`: Express sets the content type,
writes the status and serialized body, and finishes the response. -/
def jsonReply (st : Nat) (body : String) : List Ev :=
  [Ev.setHeader "Content-Type" "application/json; charset=utf-8",
   Ev.writeBody st body,
   Ev.endResponse]

/-- Lines 61-84: relay of a resolved upstream response.  Headers are copied
first (content type with `application/json` default, transfer encoding only
when present); a non-2xx response is fully read as text and passed through
with its status (a stream failure during `text()` rejects the `await` and is
handled by the `catch` of lines 86-92); a 2xx response is piped chunk by
chunk, and a stream error after piping began is only logged — the `error`
handler of lines 80-84 does not end the client response (`pipe` ends the
destination only on the source `end` event, not on `error`). -/
def relayResponse (r : UpstreamResponse) : List Ev :=
  Ev.setHeader "Content-Type" (r.contentType.getD "application/json") ::
  (match r.transferEncoding with
   | some te => [Ev.setHeader "Transfer-Encoding" te]
   | none => []) ++
  if !r.ok then
    Ev.readBody ::
    match r.streamError with
    | none =>
        let errorText := String.join r.chunks
        [Ev.log ("Gemini API returned error (" ++ toString r.status ++ "): "
           ++ errorText),
         Ev.writeBody r.status errorText,
         Ev.endResponse]
    | some err =>
        Ev.log ("Proxy request failed: " ++ err) ::
        jsonReply 500
          (errorEnvelope "Failed to proxy request to Gemini API." (some err))
  else
    Ev.readBody ::
    r.chunks.map Ev.writeChunk ++
    match r.streamError with
    | none => [Ev.endResponse]
    | some err => [Ev.log ("Error piping Gemini response stream: " ++ err)]

/-- Lines 50-92: the `try`/`catch` around the fetch — a rejected fetch is
logged and answered with the 500 JSON envelope of lines 88-91; a resolved
response is relayed. -/
def relayOutcome : FetchOutcome → List Ev
  | .fetchError msg =>
      Ev.log ("Proxy request failed: " ++ msg) ::
      jsonReply 500
        (errorEnvelope "Failed to proxy request to Gemini API." (some msg))
  | .resolved r => relayResponse r

/-- The request handler of lines 32-93.  `geminiApiKey` is the process-wide
`GEMINI_API_KEY` value (`none` when unset); `modelId` and `apiEndpoint` are
the path variables; `body` is the parsed JSON body; `upstream` gives the
behaviour of the network for the outbound call. -/
def handle (geminiApiKey : Option String) (modelId apiEndpoint : String)
    (body : Json) (upstream : OutboundRequest → FetchOutcome) : List Ev :=
  if keyFalsy geminiApiKey then
    Ev.log "GEMINI_API_KEY environment variable is not set." ::
    jsonReply 500
      (errorEnvelope "Server configuration error: Gemini API key missing."
        none)
  else
    let key := geminiApiKey.getD ""
    let req := reqOf key modelId apiEndpoint body
    Ev.log ("Proxying request to: " ++ req.url) ::
    Ev.fetchCall req ::
    relayOutcome (upstream req)

/-! Derived client-visible quantities. -/

/-- All log lines of a run, in order. -/
def logsOf : List Ev → List String
  | [] => []
  | .log m :: evs => m :: logsOf evs
  | _ :: evs => logsOf evs

/-- All outbound fetch calls of a run, in order. -/
def callsOf : List Ev → List OutboundRequest
  | [] => []
  | .fetchCall r :: evs => r :: callsOf evs
  | _ :: evs => callsOf evs

/-- The statuses explicitly written to the client, in order. -/
def statusWrites : List Ev → List Nat
  | [] => []
  | .writeBody st _ :: evs => st :: statusWrites evs
  | _ :: evs => statusWrites evs

/-- The HTTP status the client sees: the last explicitly written status, or
200 (the Express default, flushed when piping starts) when none was
written. -/
def clientStatus (evs : List Ev) : Nat :=
  ((statusWrites evs).getLast?).getD 200

/-- The body byte sequences written to the client, in order. -/
def bodyWrites : List Ev → List String
  | [] => []
  | .writeChunk s :: evs => s :: bodyWrites evs
  | .writeBody _ s :: evs => s :: bodyWrites evs
  | _ :: evs => bodyWrites evs

/-- The body bytes the client receives. -/
def clientBody (evs : List Ev) : String :=
  String.join (bodyWrites evs)

/-- The values written for a given client response header, in order. -/
def headerWrites (name : String) : List Ev → List String
  | [] => []
  | .setHeader n v :: evs =>
      if n = name then v :: headerWrites name evs else headerWrites name evs
  | _ :: evs => headerWrites name evs

/-- The final value of a client response header. -/
def clientHeader (evs : List Ev) (name : String) : Option String :=
  (headerWrites name evs).getLast?

/-- Whether the client response was ended. -/
def responseEnded : List Ev → Bool
  | [] => false
  | .endResponse :: _ => true
  | _ :: evs => responseEnded evs

/-- The events of a run that happen before any upstream body byte is read. -/
def beforeFirstRead : List Ev → List Ev
  | [] => []
  | .readBody :: _ => []
  | e :: evs => e :: beforeFirstRead evs

/-! Helper lemmas. -/

/-- A non-empty configured key is not JS-falsy. -/
theorem keyFalsy_some (k : String) (hk : k ≠ "") : keyFalsy (some k) = false := by
  simp only [keyFalsy]
  cases h : k.isEmpty
  · rfl
  · exact absurd ((String.isEmpty_iff k).mp h) hk

/-- With a configured key the handler logs the target, performs the fetch,
and continues with the relay of the fetch outcome. -/
theorem handle_some (k m a : String) (b : Json) (up : OutboundRequest → FetchOutcome)
    (hk : k ≠ "") :
    handle (some k) m a b up =
      Ev.log ("Proxying request to: " ++ (reqOf k m a b).url) ::
      Ev.fetchCall (reqOf k m a b) ::
      relayOutcome (up (reqOf k m a b)) := by
  unfold handle
  rw [keyFalsy_some k hk]
  rfl

theorem callsOf_chunks (l : List String) (evs : List Ev) :
    callsOf (l.map Ev.writeChunk ++ evs) = callsOf evs := by
  induction l with
  | nil => rfl
  | cons s rest ih => simpa [callsOf] using ih

theorem statusWrites_chunks (l : List String) (evs : List Ev) :
    statusWrites (l.map Ev.writeChunk ++ evs) = statusWrites evs := by
  induction l with
  | nil => rfl
  | cons s rest ih => simpa [statusWrites] using ih

theorem bodyWrites_chunks (l : List String) (evs : List Ev) :
    bodyWrites (l.map Ev.writeChunk ++ evs) = l ++ bodyWrites evs := by
  induction l with
  | nil => rfl
  | cons s rest ih => simpa [bodyWrites] using ih

theorem logsOf_chunks (l : List String) (evs : List Ev) :
    logsOf (l.map Ev.writeChunk ++ evs) = logsOf evs := by
  induction l with
  | nil => rfl
  | cons s rest ih => simpa [logsOf] using ih

theorem headerWrites_chunks (name : String) (l : List String) (evs : List Ev) :
    headerWrites name (l.map Ev.writeChunk ++ evs) = headerWrites name evs := by
  induction l with
  | nil => rfl
  | cons s rest ih => simpa [headerWrites] using ih

theorem responseEnded_chunks (l : List String) (evs : List Ev) :
    responseEnded (l.map Ev.writeChunk ++ evs) = responseEnded evs := by
  induction l with
  | nil => rfl
  | cons s rest ih => simpa [responseEnded] using ih

/-- The relay of a resolved response makes no further fetch call. -/
theorem callsOf_relayResponse (r : UpstreamResponse) : callsOf (relayResponse r) = [] := by
  unfold relayResponse jsonReply
  cases r.transferEncoding <;> cases hok : r.ok <;> cases r.streamError <;>
    simp [callsOf, callsOf_chunks]

/-- No fetch outcome leads to a further fetch call: the handler never
retries. -/
theorem callsOf_relayOutcome (o : FetchOutcome) : callsOf (relayOutcome o) = [] := by
  cases o with
  | fetchError msg => simp [relayOutcome, callsOf, jsonReply]
  | resolved r => exact callsOf_relayResponse r

/-- With a configured key the handler makes exactly one outbound call, the
one built by `reqOf`. -/
theorem callsOf_handle_some (k m a : String) (b : Json) (up : OutboundRequest → FetchOutcome)
    (hk : k ≠ "") :
    callsOf (handle (some k) m a b up) = [reqOf k m a b] := by
  rw [handle_some k m a b up hk]
  simp [callsOf, callsOf_relayOutcome]

theorem join_singleton (s : String) : String.join [s] = s := rfl

/-- String concatenation is left-cancellative. -/
theorem strCancelLeft (s t₁ t₂ : String) (h : s ++ t₁ = s ++ t₂) : t₁ = t₂ := by
  have hd := congrArg String.data h
  rw [String.data_append, String.data_append] at hd
  exact String.ext (List.append_cancel_left hd)

/-! Claim theorems. -/

/-- C1, counterexample: the claim "for every 2xx upstream response the client
receives the same status code as the upstream" is false.  With an upstream
response of status 201 (in the 2xx range) the client receives 200: the
success path of the handler pipes the body without ever copying the upstream
status onto the Express response, whose status defaults to 200. -/
theorem C1_counterexample :
    clientStatus (handle (some "secret") "gemini-2.0-flash" "generateContent" Json.null
      (fun _ => FetchOutcome.resolved ⟨201, some "application/json", none, ["ok"], none⟩))
      ≠ 201 := by decide

/-- C1 (amended): for every upstream response with a status code in the
success range (2xx), relayed without a stream error, the client receives
HTTP status 200 — the framework default, which equals the upstream status
only when that status is 200 — and a client-visible body byte-identical to
the upstream body (the concatenation of the upstream chunks), with no
transformation applied. -/
theorem C1_success (k m a : String) (b : Json) (up : OutboundRequest → FetchOutcome)
    (st : Nat) (ct te : Option String) (ch : List String)
    (hk : k ≠ "") (hup : up (reqOf k m a b) = .resolved ⟨st, ct, te, ch, none⟩)
    (h2 : 200 ≤ st) (h3 : st < 300) :
    clientStatus (handle (some k) m a b up) = 200 ∧
    clientBody (handle (some k) m a b up) = String.join ch := by
  rw [handle_some k m a b up hk, hup]
  cases te <;>
    simp [relayOutcome, relayResponse, UpstreamResponse.ok, h2, h3,
      clientStatus, statusWrites, statusWrites_chunks,
      clientBody, bodyWrites, bodyWrites_chunks]

/-- C1, witness of the amended claim at a concrete run. -/
theorem C1_success_witness :
    ("secret" : String) ≠ "" ∧ (200 : Nat) ≤ 200 ∧ (200 : Nat) < 300 ∧
    clientStatus (handle (some "secret") "gemini-2.0-flash" "streamGenerateContent"
      (Json.obj [("contents", Json.str "hi")])
      (fun _ => FetchOutcome.resolved ⟨200, some "application/json", none,
        ["\x7b\"text\":\"hello\"\x7d"], none⟩)) = 200 ∧
    clientBody (handle (some "secret") "gemini-2.0-flash" "streamGenerateContent"
      (Json.obj [("contents", Json.str "hi")])
      (fun _ => FetchOutcome.resolved ⟨200, some "application/json", none,
        ["\x7b\"text\":\"hello\"\x7d"], none⟩)) = String.join ["\x7b\"text\":\"hello\"\x7d"] :=
  ⟨by decide, by decide, by decide,
   (C1_success "secret" "gemini-2.0-flash" "streamGenerateContent"
     (Json.obj [("contents", Json.str "hi")])
     (fun _ => FetchOutcome.resolved ⟨200, some "application/json", none,
       ["\x7b\"text\":\"hello\"\x7d"], none⟩)
     200 (some "application/json") none ["\x7b\"text\":\"hello\"\x7d"]
     (by decide) rfl (by decide) (by decide)).1,
   (C1_success "secret" "gemini-2.0-flash" "streamGenerateContent"
     (Json.obj [("contents", Json.str "hi")])
     (fun _ => FetchOutcome.resolved ⟨200, some "application/json", none,
       ["\x7b\"text\":\"hello\"\x7d"], none⟩)
     200 (some "application/json") none ["\x7b\"text\":\"hello\"\x7d"]
     (by decide) rfl (by decide) (by decide)).2⟩

/-- C2: with a configured credential, the single outbound URL equals the
fixed upstream host followed by the literal
`/v1beta/models/modelId:apiEndpoint?key=credential` with the path
variables interpolated verbatim. -/
theorem C2_target_url (k m a : String) (b : Json) (up : OutboundRequest → FetchOutcome)
    (hk : k ≠ "") :
    (callsOf (handle (some k) m a b up)).map OutboundRequest.url =
      ["https://generativelanguage.googleapis.com/v1beta/models/" ++ m ++ ":" ++ a
        ++ "?key=" ++ k] := by
  rw [callsOf_handle_some k m a b up hk]
  rfl

/-- C2, witness at a concrete run. -/
theorem C2_target_url_witness :
    ("secret" : String) ≠ "" ∧
    (callsOf (handle (some "secret") "gemini-2.0-flash" "generateContent" Json.null
      (fun _ => FetchOutcome.fetchError "down"))).map OutboundRequest.url =
      ["https://generativelanguage.googleapis.com/v1beta/models/" ++ "gemini-2.0-flash"
        ++ ":" ++ "generateContent" ++ "?key=" ++ "secret"] :=
  ⟨by decide,
   C2_target_url "secret" "gemini-2.0-flash" "generateContent" Json.null
     (fun _ => FetchOutcome.fetchError "down") (by decide)⟩

/-- C3: with the credential unset, every inbound request is answered with
HTTP 500 and the structured JSON error body of line 36, and no outbound
call is made. -/
theorem C3_missing_key (m a : String) (b : Json) (up : OutboundRequest → FetchOutcome) :
    clientStatus (handle none m a b up) = 500 ∧
    clientBody (handle none m a b up) =
      "\x7b\"error\":\"Server configuration error: Gemini API key missing.\"\x7d" ∧
    callsOf (handle none m a b up) = [] :=
  ⟨rfl, rfl, rfl⟩

/-- C4: for every non-2xx upstream response (whose body stream completes),
the client receives exactly the upstream status code and the raw upstream
body text (the concatenation of the upstream chunks, not re-wrapped in
JSON). -/
theorem C4_non2xx (k m a : String) (b : Json) (up : OutboundRequest → FetchOutcome)
    (st : Nat) (ct te : Option String) (ch : List String)
    (hk : k ≠ "") (hup : up (reqOf k m a b) = .resolved ⟨st, ct, te, ch, none⟩)
    (hnot : st < 200 ∨ 300 ≤ st) :
    clientStatus (handle (some k) m a b up) = st ∧
    clientBody (handle (some k) m a b up) = String.join ch := by
  rw [handle_some k m a b up hk, hup]
  have hok : (200 ≤ st && st < 300) = false := by
    rcases hnot with h | h <;> simp <;> omega
  cases te <;>
    simp [relayOutcome, relayResponse, UpstreamResponse.ok, hok,
      clientStatus, statusWrites, clientBody, bodyWrites, join_singleton]

/-- C4, witness: the spec example of a 429 with body `rate limited`. -/
theorem C4_non2xx_witness :
    ("secret" : String) ≠ "" ∧ ((429 : Nat) < 200 ∨ (300 : Nat) ≤ 429) ∧
    clientStatus (handle (some "secret") "gemini-2.0-flash" "generateContent" Json.null
      (fun _ => FetchOutcome.resolved ⟨429, some "text/plain", none, ["rate limited"], none⟩))
      = 429 ∧
    clientBody (handle (some "secret") "gemini-2.0-flash" "generateContent" Json.null
      (fun _ => FetchOutcome.resolved ⟨429, some "text/plain", none, ["rate limited"], none⟩))
      = String.join ["rate limited"] :=
  ⟨by decide, by decide,
   (C4_non2xx "secret" "gemini-2.0-flash" "generateContent" Json.null
     (fun _ => FetchOutcome.resolved ⟨429, some "text/plain", none, ["rate limited"], none⟩)
     429 (some "text/plain") none ["rate limited"] (by decide) rfl (by decide)).1,
   (C4_non2xx "secret" "gemini-2.0-flash" "generateContent" Json.null
     (fun _ => FetchOutcome.resolved ⟨429, some "text/plain", none, ["rate limited"], none⟩)
     429 (some "text/plain") none ["rate limited"] (by decide) rfl (by decide)).2⟩

/-- C5: with a configured credential the outbound call is exactly one HTTP
POST to the target URL with the single header
`Content-Type: application/json` and a body equal to the serialized inbound
JSON body, forwarded unmodified. -/
theorem C5_outbound_shape (k m a : String) (b : Json) (up : OutboundRequest → FetchOutcome)
    (hk : k ≠ "") :
    callsOf (handle (some k) m a b up) =
      [{ url := targetUrl m a k, method := "POST", contentType := "application/json",
         body := Json.stringify b }] :=
  callsOf_handle_some k m a b up hk

/-- C5, witness at a concrete run. -/
theorem C5_outbound_shape_witness :
    ("secret" : String) ≠ "" ∧
    callsOf (handle (some "secret") "gemini-2.0-flash" "generateContent"
      (Json.obj [("contents", Json.arr [Json.num 1])])
      (fun _ => FetchOutcome.fetchError "down")) =
      [{ url := targetUrl "gemini-2.0-flash" "generateContent" "secret", method := "POST",
         contentType := "application/json",
         body := Json.stringify (Json.obj [("contents", Json.arr [Json.num 1])]) }] :=
  ⟨by decide,
   C5_outbound_shape "secret" "gemini-2.0-flash" "generateContent"
     (Json.obj [("contents", Json.arr [Json.num 1])])
     (fun _ => FetchOutcome.fetchError "down") (by decide)⟩

/-- C6: for every resolved upstream response, the client content type is set
to the upstream content type (defaulting to `application/json` when absent)
before any upstream body byte is read, and the `Transfer-Encoding` header is
propagated (also before any body read) if, and only if, the upstream set
one. -/
theorem C6_headers (k m a : String) (b : Json) (up : OutboundRequest → FetchOutcome)
    (st : Nat) (ct te : Option String) (ch : List String) (se : Option String)
    (hk : k ≠ "") (hup : up (reqOf k m a b) = .resolved ⟨st, ct, te, ch, se⟩) :
    Ev.setHeader "Content-Type" (ct.getD "application/json")
        ∈ beforeFirstRead (handle (some k) m a b up) ∧
    (∀ v, te = some v →
      Ev.setHeader "Transfer-Encoding" v ∈ beforeFirstRead (handle (some k) m a b up)) ∧
    (te = none →
      ∀ v, Ev.setHeader "Transfer-Encoding" v ∉ handle (some k) m a b up) := by
  have hne : ("Content-Type" : String) ≠ "Transfer-Encoding" := by decide
  refine ⟨?_, ?_, ?_⟩
  · rw [handle_some k m a b up hk, hup]
    cases te <;> cases hok : (200 ≤ st && st < 300) <;> cases se <;>
      simp [relayOutcome, relayResponse, UpstreamResponse.ok, hok, jsonReply,
        beforeFirstRead, List.mem_map, hne]
  · intro v hv
    subst hv
    rw [handle_some k m a b up hk, hup]
    cases hok : (200 ≤ st && st < 300) <;> cases se <;>
      simp [relayOutcome, relayResponse, UpstreamResponse.ok, hok, jsonReply,
        beforeFirstRead, List.mem_map, hne]
  · intro hte v
    subst hte
    rw [handle_some k m a b up hk, hup]
    cases hok : (200 ≤ st && st < 300) <;> cases se <;>
      simp [relayOutcome, relayResponse, UpstreamResponse.ok, hok, jsonReply,
        beforeFirstRead, List.mem_map, hne]

/-- C6, witness: a chunked streaming upstream response. -/
theorem C6_headers_witness :
    ("secret" : String) ≠ "" ∧
    Ev.setHeader "Content-Type" "text/event-stream"
      ∈ beforeFirstRead (handle (some "secret") "gemini-2.0-flash" "streamGenerateContent"
        Json.null (fun _ => FetchOutcome.resolved ⟨200, some "text/event-stream",
          some "chunked", ["data: x"], none⟩)) ∧
    Ev.setHeader "Transfer-Encoding" "chunked"
      ∈ beforeFirstRead (handle (some "secret") "gemini-2.0-flash" "streamGenerateContent"
        Json.null (fun _ => FetchOutcome.resolved ⟨200, some "text/event-stream",
          some "chunked", ["data: x"], none⟩)) :=
  ⟨by decide,
   (C6_headers "secret" "gemini-2.0-flash" "streamGenerateContent" Json.null
     (fun _ => FetchOutcome.resolved ⟨200, some "text/event-stream", some "chunked",
       ["data: x"], none⟩)
     200 (some "text/event-stream") (some "chunked") ["data: x"] none
     (by decide) rfl).1,
   (C6_headers "secret" "gemini-2.0-flash" "streamGenerateContent" Json.null
     (fun _ => FetchOutcome.resolved ⟨200, some "text/event-stream", some "chunked",
       ["data: x"], none⟩)
     200 (some "text/event-stream") (some "chunked") ["data: x"] none
     (by decide) rfl).2.1 "chunked" rfl⟩

/-- C7: when the outbound fetch fails before any upstream response, the
client receives HTTP 500 with the JSON envelope holding an `error` field and
a `details` field carrying the cause message, and no body chunk is ever
streamed to the client. -/
theorem C7_fetch_error (k m a : String) (b : Json) (up : OutboundRequest → FetchOutcome)
    (msg : String) (hk : k ≠ "") (hup : up (reqOf k m a b) = .fetchError msg) :
    clientStatus (handle (some k) m a b up) = 500 ∧
    clientBody (handle (some k) m a b up) =
      Json.stringify (Json.obj
        [("error", Json.str "Failed to proxy request to Gemini API."),
         ("details", Json.str msg)]) ∧
    ∀ s, Ev.writeChunk s ∉ handle (some k) m a b up := by
  rw [handle_some k m a b up hk, hup]
  refine ⟨rfl, rfl, ?_⟩
  simp [relayOutcome, jsonReply]

/-- C7, witness: a concrete connection failure. -/
theorem C7_fetch_error_witness :
    ("secret" : String) ≠ "" ∧
    clientStatus (handle (some "secret") "gemini-2.0-flash" "generateContent" Json.null
      (fun _ => FetchOutcome.fetchError "connect ECONNREFUSED")) = 500 ∧
    clientBody (handle (some "secret") "gemini-2.0-flash" "generateContent" Json.null
      (fun _ => FetchOutcome.fetchError "connect ECONNREFUSED")) =
      "\x7b\"error\":\"Failed to proxy request to Gemini API.\",\"details\":\"connect ECONNREFUSED\"\x7d" ∧
    ∀ s, Ev.writeChunk s ∉ handle (some "secret") "gemini-2.0-flash" "generateContent"
      Json.null (fun _ => FetchOutcome.fetchError "connect ECONNREFUSED") :=
  ⟨by decide,
   (C7_fetch_error "secret" "gemini-2.0-flash" "generateContent" Json.null
     (fun _ => FetchOutcome.fetchError "connect ECONNREFUSED") "connect ECONNREFUSED"
     (by decide) rfl).1,
   (C7_fetch_error "secret" "gemini-2.0-flash" "generateContent" Json.null
     (fun _ => FetchOutcome.fetchError "connect ECONNREFUSED") "connect ECONNREFUSED"
     (by decide) rfl).2.1,
   (C7_fetch_error "secret" "gemini-2.0-flash" "generateContent" Json.null
     (fun _ => FetchOutcome.fetchError "connect ECONNREFUSED") "connect ECONNREFUSED"
     (by decide) rfl).2.2⟩

/-- C8, counterexample: the claim "the relay ends the client response" on a
mid-stream failure is false.  On a 2xx upstream response whose body stream
errors after one chunk, the error handler of lines 80-84 only logs — the
client response is never ended (stream piping does not end the destination
on a source error, and the handler does not call end). -/
theorem C8_counterexample :
    responseEnded (handle (some "secret") "gemini-2.0-flash" "streamGenerateContent"
      Json.null (fun _ => FetchOutcome.resolved ⟨200, some "text/event-stream",
        some "chunked", ["data: 1"], some "socket hang up"⟩)) = false := by decide

/-- C8 (amended): if the upstream body stream fails partway through relaying
a 2xx response, the status (200) and headers already communicated are not
altered, the delivered body is the truncated prefix of upstream chunks, the
failure is logged, and no retry is attempted; however the relay does not end
the client response — it is left open, so the client observes a truncated,
unterminated body. -/
theorem C8_stream_failure (k m a : String) (b : Json) (up : OutboundRequest → FetchOutcome)
    (st : Nat) (ct te : Option String) (ch : List String) (err : String)
    (hk : k ≠ "") (hup : up (reqOf k m a b) = .resolved ⟨st, ct, te, ch, some err⟩)
    (h2 : 200 ≤ st) (h3 : st < 300) :
    clientStatus (handle (some k) m a b up) = 200 ∧
    clientHeader (handle (some k) m a b up) "Content-Type" =
      some (ct.getD "application/json") ∧
    clientBody (handle (some k) m a b up) = String.join ch ∧
    responseEnded (handle (some k) m a b up) = false ∧
    ("Error piping Gemini response stream: " ++ err)
        ∈ logsOf (handle (some k) m a b up) ∧
    callsOf (handle (some k) m a b up) = [reqOf k m a b] := by
  have hTEne : ("Transfer-Encoding" : String) ≠ "Content-Type" := by decide
  refine ⟨?_, ?_, ?_, ?_, ?_, callsOf_handle_some k m a b up hk⟩ <;>
    rw [handle_some k m a b up hk, hup] <;>
    cases te <;>
    simp [relayOutcome, relayResponse, UpstreamResponse.ok, h2, h3,
      clientStatus, statusWrites, statusWrites_chunks,
      clientBody, bodyWrites, bodyWrites_chunks,
      clientHeader, headerWrites, headerWrites_chunks,
      responseEnded, responseEnded_chunks, logsOf, logsOf_chunks, hTEne]

/-- C8, witness of the amended claim at a concrete mid-stream failure. -/
theorem C8_stream_failure_witness :
    ("secret" : String) ≠ "" ∧ (200 : Nat) ≤ 200 ∧ (200 : Nat) < 300 ∧
    clientStatus (handle (some "secret") "gemini-2.0-flash" "streamGenerateContent" Json.null
      (fun _ => FetchOutcome.resolved ⟨200, some "text/event-stream", none,
        ["data: hello"], some "read ECONNRESET"⟩)) = 200 ∧
    responseEnded (handle (some "secret") "gemini-2.0-flash" "streamGenerateContent" Json.null
      (fun _ => FetchOutcome.resolved ⟨200, some "text/event-stream", none,
        ["data: hello"], some "read ECONNRESET"⟩)) = false ∧
    ("Error piping Gemini response stream: " ++ "read ECONNRESET")
      ∈ logsOf (handle (some "secret") "gemini-2.0-flash" "streamGenerateContent" Json.null
        (fun _ => FetchOutcome.resolved ⟨200, some "text/event-stream", none,
          ["data: hello"], some "read ECONNRESET"⟩)) :=
  ⟨by decide, by decide, by decide,
   (C8_stream_failure "secret" "gemini-2.0-flash" "streamGenerateContent" Json.null
     (fun _ => FetchOutcome.resolved ⟨200, some "text/event-stream", none,
       ["data: hello"], some "read ECONNRESET"⟩)
     200 (some "text/event-stream") none ["data: hello"] "read ECONNRESET"
     (by decide) rfl (by decide) (by decide)).1,
   (C8_stream_failure "secret" "gemini-2.0-flash" "streamGenerateContent" Json.null
     (fun _ => FetchOutcome.resolved ⟨200, some "text/event-stream", none,
       ["data: hello"], some "read ECONNRESET"⟩)
     200 (some "text/event-stream") none ["data: hello"] "read ECONNRESET"
     (by decide) rfl (by decide) (by decide)).2.2.2.1,
   (C8_stream_failure "secret" "gemini-2.0-flash" "streamGenerateContent" Json.null
     (fun _ => FetchOutcome.resolved ⟨200, some "text/event-stream", none,
       ["data: hello"], some "read ECONNRESET"⟩)
     200 (some "text/event-stream") none ["data: hello"] "read ECONNRESET"
     (by decide) rfl (by decide) (by decide)).2.2.2.2.1⟩

/-- C9: the outbound URL is a pure, deterministic function of the triple
(model identifier, API endpoint name, credential): two runs that agree on
that triple but differ in any other request state (body, upstream behaviour)
produce identical outbound URL sequences, namely the single target URL. -/
theorem C9_url_pure (m a k : String) (b₁ b₂ : Json) (up₁ up₂ : OutboundRequest → FetchOutcome)
    (hk : k ≠ "") :
    (callsOf (handle (some k) m a b₁ up₁)).map OutboundRequest.url =
      (callsOf (handle (some k) m a b₂ up₂)).map OutboundRequest.url ∧
    (callsOf (handle (some k) m a b₁ up₁)).map OutboundRequest.url = [targetUrl m a k] := by
  rw [callsOf_handle_some k m a b₁ up₁ hk, callsOf_handle_some k m a b₂ up₂ hk]
  exact ⟨rfl, rfl⟩

/-- C9, witness: two runs differing in body and upstream behaviour. -/
theorem C9_url_pure_witness :
    ("secret" : String) ≠ "" ∧
    (callsOf (handle (some "secret") "m" "e" Json.null
      (fun _ => FetchOutcome.fetchError "x"))).map OutboundRequest.url =
      (callsOf (handle (some "secret") "m" "e" (Json.obj [("q", Json.num 2)])
        (fun _ => FetchOutcome.resolved ⟨200, none, none, [], none⟩))).map OutboundRequest.url ∧
    (callsOf (handle (some "secret") "m" "e" Json.null
      (fun _ => FetchOutcome.fetchError "x"))).map OutboundRequest.url =
      [targetUrl "m" "e" "secret"] :=
  ⟨by decide,
   (C9_url_pure "m" "e" "secret" Json.null (Json.obj [("q", Json.num 2)])
     (fun _ => FetchOutcome.fetchError "x")
     (fun _ => FetchOutcome.resolved ⟨200, none, none, [], none⟩) (by decide)).1,
   (C9_url_pure "m" "e" "secret" Json.null (Json.obj [("q", Json.num 2)])
     (fun _ => FetchOutcome.fetchError "x")
     (fun _ => FetchOutcome.resolved ⟨200, none, none, [], none⟩) (by decide)).2⟩

/-- C10: the full target URL, credential included, is logged before the
outbound call (the first two events of a configured run are the log of the
target URL and the fetch), so the log output depends on the credential: two
runs differing only in the configured credential produce different logs. -/
theorem C10_key_in_logs (m a : String) (b : Json) (k₁ k₂ : String)
    (up₁ up₂ : OutboundRequest → FetchOutcome)
    (h1 : k₁ ≠ "") (h2 : k₂ ≠ "") (hne : k₁ ≠ k₂) :
    ("Proxying request to: " ++ targetUrl m a k₁) ∈ logsOf (handle (some k₁) m a b up₁) ∧
    (handle (some k₁) m a b up₁).take 2 =
      [Ev.log ("Proxying request to: " ++ targetUrl m a k₁),
       Ev.fetchCall (reqOf k₁ m a b)] ∧
    logsOf (handle (some k₁) m a b up₁) ≠ logsOf (handle (some k₂) m a b up₂) := by
  refine ⟨?_, ?_, ?_⟩
  · rw [handle_some k₁ m a b up₁ h1]
    simp [logsOf, reqOf]
  · rw [handle_some k₁ m a b up₁ h1]
    rfl
  · intro heq
    rw [handle_some k₁ m a b up₁ h1, handle_some k₂ m a b up₂ h2] at heq
    simp only [logsOf] at heq
    injection heq with hh _
    simp only [reqOf, targetUrl] at hh
    exact hne (strCancelLeft _ k₁ k₂ (strCancelLeft _ _ _ hh))

/-- C10, witness: two concrete runs with different credentials. -/
theorem C10_key_in_logs_witness :
    ("alpha" : String) ≠ "" ∧ ("beta" : String) ≠ "" ∧ ("alpha" : String) ≠ "beta" ∧
    ("Proxying request to: " ++ targetUrl "m" "e" "alpha")
      ∈ logsOf (handle (some "alpha") "m" "e" Json.null
        (fun _ => FetchOutcome.fetchError "x")) ∧
    logsOf (handle (some "alpha") "m" "e" Json.null (fun _ => FetchOutcome.fetchError "x")) ≠
      logsOf (handle (some "beta") "m" "e" Json.null (fun _ => FetchOutcome.fetchError "x")) :=
  ⟨by decide, by decide, by decide,
   (C10_key_in_logs "m" "e" Json.null "alpha" "beta"
     (fun _ => FetchOutcome.fetchError "x") (fun _ => FetchOutcome.fetchError "x")
     (by decide) (by decide) (by decide)).1,
   (C10_key_in_logs "m" "e" Json.null "alpha" "beta"
     (fun _ => FetchOutcome.fetchError "x") (fun _ => FetchOutcome.fetchError "x")
     (by decide) (by decide) (by decide)).2.2⟩

end GeminiProxy
